import Mathlib

/-!
Verification of the SCION certificate-renewal pipeline
(`private/ca/renewal`): the renewal dispatcher (`RenewalServer.ChainRenewal`),
the CMS renewal handler (`CMS.HandleCMSRequest`), the chain builder
(`cppki.CAPolicy.CreateChain`), the requester-side envelope builder
(`renewal.NewChainRenewalRequest`) and the renewal-request verifier.
The repository snapshot ships only the test files for these components
(`renewal_test.go`, `cms_test.go`); the operations themselves are modelled
from the design specification, faithful to the behaviour the tests pin down.
Cryptographic primitives (signatures, key derivation) are abstracted into
injective symbolic operations, and the wire serializations (CMS envelope)
into tagged encodings, as the spec mandates no concrete serialization.
-/

/-- Byte strings, modelled as lists of naturals. -/
abbrev Bytes := List Nat

/-- Identifier (IA): a compound `(ISD, AS)` pair. Equality is field-wise;
the ISD component is extractable independently for jurisdiction checks. -/
structure IA where
  isd : Nat
  as : Nat
deriving DecidableEq, Repr

/-- A symbolic signature: records the signing key and the signed message.
This abstracts the cryptographic primitive; a signature verifies against a
public key iff it was produced by the corresponding private key over the
same message. -/
structure Sig where
  key : Nat
  msg : Bytes
deriving DecidableEq, Repr

/-- Sign a message with a private key (symbolic crypto). -/
def signBytes (privateKey : Nat) (msg : Bytes) : Sig :=
  ⟨privateKey, msg⟩

/-- Check a signature against a public key and a message (symbolic crypto:
the public key of a key pair is identified with its private key). -/
def checkSig (publicKey : Nat) (msg : Bytes) (s : Sig) : Bool :=
  s.key = publicKey && s.msg = msg

/-- An X.509-style certificate: the attributes the renewal core reads. -/
structure Certificate where
  raw : Bytes := []
  subjectIA : Option IA := none
  subjectKeyID : Bytes := []
  authorityKeyID : Bytes := []
  notBefore : Nat := 0
  notAfter : Nat := 0
  keyCertSign : Bool := false
  isCA : Bool := false
  pubKey : Nat := 0
  serial : Nat := 0
deriving DecidableEq, Repr

/-- A validity window. -/
structure Validity where
  notBefore : Nat
  notAfter : Nat
deriving DecidableEq, Repr

/-- A certificate signing request, in parsed form (the analogue of
`x509.CertificateRequest`): raw bytes, the subject IA carried in the
well-known subject-name extension (`none` when absent or malformed),
and the candidate public key. -/
structure CSR where
  raw : Bytes := []
  subjectIA : Option IA := none
  publicKey : Nat := 0
deriving DecidableEq, Repr

/-- The content of a well-formed CMS-signed renewal payload: the embedded
signing request, the signer's declared IA and subject-key identifier, the
signer's current chain, the claimed signature expiration, and the signature
over the raw CSR bytes. -/
structure SignedPayload where
  csr : CSR
  signerIA : IA
  signerSKID : Bytes
  chain : List Certificate
  expiration : Nat
  sig : Sig
deriving DecidableEq, Repr

/-- CMS payload bytes: either opaque bytes that are not a well-formed CMS
enveloped/signed structure, or the encoding of a well-formed payload.
This is the abstract-serialization model the spec allows (no concrete
serialization is mandated, only the contract). -/
inductive CMSBytes where
  | raw (bs : Bytes)
  | encoded (p : SignedPayload)
deriving DecidableEq, Repr

/-- Structural decode of a CMS payload: succeeds exactly on well-formed
encodings. -/
def decodeCMS : CMSBytes → Option SignedPayload
  | .raw _ => none
  | .encoded p => some p

/-- The renewal request message, as the spec's tagged union: at most one of
the two payload kinds is populated. -/
inductive Request where
  | empty
  | legacySigned (bs : Bytes)
  | cmsSigned (bs : CMSBytes)
deriving DecidableEq, Repr

/-- The CMS-signed payload field of a request (empty bytes when the field is
absent, mirroring the wire encoding where an absent bytes field reads as
empty). -/
def Request.cmsPayload : Request → CMSBytes
  | .cmsSigned bs => bs
  | _ => .raw []

/-- Whether the CMS-signed payload kind is populated. -/
def Request.hasCMS : Request → Bool
  | .cmsSigned _ => true
  | _ => false

/-- Deterministic, collision-resistant derivation of a subject-key identifier
from a public key (symbolic: the singleton byte string, which is injective).
The same derivation is used chain-wide. -/
def subjectKeyID (publicKey : Nat) : Bytes :=
  [publicKey]

/-- CA policy: the configuration binding a validity duration, the CA's own
certificate and the CA's private key. -/
structure CAPolicy where
  validity : Nat
  certificate : Certificate
  signerKey : Nat
deriving DecidableEq, Repr

/-- Failure modes of chain issuance: a malformed CSR subject is a
client-fault (invalid-argument class) error; a signing fault is a
server-fault (internal class) error. -/
inductive CAErr where
  | invalidCSR
  | signingFault
deriving DecidableEq, Repr

/-- Modelled from the spec: `cppki.CAPolicy.CreateChain` (the chain builder),
whose implementation is absent from the snapshot (only its tests are
present). Extracts the subject IA from the CSR's subject-name extension
(failing when absent or malformed), derives the subject-key identifier from
the CSR's public key, sets the validity window `[now, now + validity)`
clamped to the CA certificate's own remaining validity, links the leaf to
the CA via the authority-key identifier, restricts key usage to a non-CA
leaf, signs with the CA's private key, and assembles
`[newLeaf, CACertificate]`. `now` and `serial` model the clock reading and
the fresh serial drawn during issuance. -/
def CAPolicy.createChain (ca : CAPolicy) (now serial : Nat) (csr : CSR) :
    Except CAErr (List Certificate) :=
  match csr.subjectIA with
  | none => .error .invalidCSR
  | some ia =>
      let leaf : Certificate :=
        { raw := csr.raw
          subjectIA := some ia
          subjectKeyID := subjectKeyID csr.publicKey
          authorityKeyID := ca.certificate.subjectKeyID
          notBefore := now
          notAfter := min (now + ca.validity) ca.certificate.notAfter
          keyCertSign := false
          isCA := false
          pubKey := csr.publicKey
          serial := serial }
      .ok [leaf, ca.certificate]

/-- Current-identity signer (`trust.Signer`): the requester-side material
used to self-sign a renewal request. -/
structure TrustSigner where
  privateKey : Nat
  algorithm : Nat
  chainValidity : Validity
  expiration : Nat
  ia : IA
  subjectKeyIdent : Bytes
  chain : List Certificate
deriving DecidableEq, Repr

/-- A valid current-identity signer whose chain has not expired: the chain
is the two-element `[leaf, issuer]` form, the leaf belongs to the signer
(its public key matches the signer's private key, its subject IA is the
signer's IA, its subject-key identifier is the signer's), the leaf's
validity window is the signer's recorded chain validity, and the signature
expiration lies inside that window (so the chain is still valid at the
claimed signature time). -/
def TrustSigner.validB (s : TrustSigner) : Bool :=
  match s.chain with
  | [leaf, _issuer] =>
      leaf.pubKey = s.privateKey &&
      leaf.subjectIA = some s.ia &&
      leaf.subjectKeyID = s.subjectKeyIdent &&
      leaf.notBefore = s.chainValidity.notBefore &&
      leaf.notAfter = s.chainValidity.notAfter &&
      s.chainValidity.notBefore ≤ s.expiration &&
      s.expiration ≤ s.chainValidity.notAfter
  | _ => false

/-- Failure mode of the requester-side envelope builder. -/
inductive BuildErr where
  | expirationAfterChain
deriving DecidableEq, Repr

/-- Modelled from the spec: `renewal.NewChainRenewalRequest` (the
requester-side request/envelope builder), whose implementation is absent
from the snapshot (only its call sites in tests are present). Produces a
CMS-signed envelope whose signature is computed with the signer's private
key over the raw CSR bytes and whose metadata carries the signer's current
chain, subject-key identifier, declared IA, and a signature expiration not
exceeding the chain's `NotAfter` (enforcing the signer invariant). The
context is an opaque value passed for interface fidelity. -/
def NewChainRenewalRequest (_ctx : Nat) (csr : CSR) (s : TrustSigner) :
    Except BuildErr Request :=
  if s.expiration ≤ s.chainValidity.notAfter then
    .ok (.cmsSigned (.encoded
      { csr := csr
        signerIA := s.ia
        signerSKID := s.subjectKeyIdent
        chain := s.chain
        expiration := s.expiration
        sig := signBytes s.privateKey csr.raw }))
  else
    .error .expirationAfterChain

/-- Failure modes of the renewal-request verifier. -/
inductive VerifyErr where
  | malformedEnvelope
  | badChainShape
  | badSignature
  | signerExpired
  | iaMismatch
deriving DecidableEq, Repr

/-- Modelled from the spec: the production renewal-request verifier
(`renewal.VerifyCMSSignedRenewalRequest`), whose implementation is absent
from the snapshot. Rejects malformed envelopes, chains not of the
`[leaf, issuer]` form, signatures that do not validate against the
embedded signer chain's leaf, signer chains whose validity window does not
cover the claimed signature time, and any mismatch between the envelope's
declared signer IA and the chain actually used to sign. Returns the decoded
signing request only on success. -/
def VerifyCMSSignedRenewalRequest (msg : CMSBytes) : Except VerifyErr CSR :=
  match decodeCMS msg with
  | none => .error .malformedEnvelope
  | some p =>
      match p.chain with
      | [leaf, _issuer] =>
          if checkSig leaf.pubKey p.csr.raw p.sig = false then
            .error .badSignature
          else if leaf.notBefore ≤ p.expiration ∧ p.expiration ≤ leaf.notAfter then
            if leaf.subjectIA = some p.signerIA then
              .ok p.csr
            else
              .error .iaMismatch
          else
            .error .signerExpired
      | _ => .error .badChainShape

/-- Wire status codes returned to the transport. -/
inductive Code where
  | ok
  | invalidArgument
  | permissionDenied
  | unavailable
  | genericErr
deriving DecidableEq, Repr

/-- The metric categories of the CMS renewal handler. -/
inductive CMSMetric where
  | databaseError
  | internalError
  | notFoundError
  | parseError
  | verifyError
  | success
deriving DecidableEq, Repr

/-- The counter family of the CMS renewal handler, one counter per
category. -/
structure CMSHandlerMetrics where
  databaseError : Nat := 0
  internalError : Nat := 0
  notFoundError : Nat := 0
  parseError : Nat := 0
  verifyError : Nat := 0
  success : Nat := 0
deriving DecidableEq, Repr

/-- Read the counter of one category. -/
def CMSHandlerMetrics.get (m : CMSHandlerMetrics) : CMSMetric → Nat
  | .databaseError => m.databaseError
  | .internalError => m.internalError
  | .notFoundError => m.notFoundError
  | .parseError => m.parseError
  | .verifyError => m.verifyError
  | .success => m.success

/-- Increment the counter of one category by one. -/
def bumpCMS (m : CMSHandlerMetrics) : CMSMetric → CMSHandlerMetrics
  | .databaseError => { m with databaseError := m.databaseError + 1 }
  | .internalError => { m with internalError := m.internalError + 1 }
  | .notFoundError => { m with notFoundError := m.notFoundError + 1 }
  | .parseError => { m with parseError := m.parseError + 1 }
  | .verifyError => { m with verifyError := m.verifyError + 1 }
  | .success => { m with success := m.success + 1 }

/-- An invocation of an injected capability, recorded with its exact
arguments. Used to make "the capability is (never) invoked" observable in
the pure model. -/
inductive CapCall where
  | verifyCall (ctx : Nat) (msg : CMSBytes)
  | createChainCall (ctx : Nat) (csr : CSR)
  | signCMSCall (ctx : Nat) (chain : List Certificate)
  | handleCMSCall (ctx : Nat) (req : Request)
deriving DecidableEq, Repr

/-- Whether a capability call is an invocation of the verifier. -/
def CapCall.isVerify : CapCall → Bool
  | .verifyCall _ _ => true
  | _ => false

/-- Whether a capability call is an invocation of the response signer. -/
def CapCall.isSignCMS : CapCall → Bool
  | .signCMSCall _ _ => true
  | _ => false

/-- Whether a capability call is an invocation of the CMS handler. -/
def CapCall.isHandleCMS : CapCall → Bool
  | .handleCMSCall _ _ => true
  | _ => false

/-- The CMS renewal handler's configuration (`grpc.CMS`): the injected
verifier and chain-builder capabilities and the IA this server instance is
configured to serve. Capabilities are modelled as functions from an opaque
context and their argument to their result. -/
structure CMS where
  verifier : Nat → CMSBytes → Except Unit CSR
  chainBuilder : Nat → CSR → Except Unit (List Certificate)
  ia : IA

/-- The observable outcome of one CMS handler call: the issued chain (none
on error), the wire status code, the updated counter family, and the
capability invocations made, in order. -/
structure HandlerResult where
  chain : Option (List Certificate)
  code : Code
  metrics : CMSHandlerMetrics
  calls : List CapCall
deriving DecidableEq, Repr

/-- Modelled from the spec: `grpc.CMS.HandleCMSRequest` (the CMS renewal
handler), whose implementation is absent from the snapshot (only its tests
are present). The pipeline, in order and short-circuiting on first
failure: (1) jurisdiction pre-check against the claimed identity supplied
by the transport layer (modelled as the explicit `claimedIA` argument, as
the spec directs) — an ISD mismatch fails with permission-denied and the
not-found category before any decoding or cryptographic work; (2)
structural decode of the CMS payload — undecodable bytes fail with
invalid-argument and the parse category without invoking the verifier; (3)
cryptographic verification via the injected verifier, which receives the
caller's context and the request's CMS payload field unmodified — failure
is invalid-argument with the verify category; (4) chain issuance via the
injected chain builder — failure is unavailable with the internal
category; (5) success returns the issued chain and records the success
category. Exactly one counter is incremented per call. -/
def HandleCMSRequest (s : CMS) (claimedIA : IA) (ctx : Nat) (req : Request)
    (m : CMSHandlerMetrics) : HandlerResult :=
  if claimedIA.isd ≠ s.ia.isd then
    ⟨none, .permissionDenied, bumpCMS m .notFoundError, []⟩
  else
    match decodeCMS req.cmsPayload with
    | none => ⟨none, .invalidArgument, bumpCMS m .parseError, []⟩
    | some _ =>
        match s.verifier ctx req.cmsPayload with
        | .error _ =>
            ⟨none, .invalidArgument, bumpCMS m .verifyError,
              [.verifyCall ctx req.cmsPayload]⟩
        | .ok csr =>
            match s.chainBuilder ctx csr with
            | .error _ =>
                ⟨none, .unavailable, bumpCMS m .internalError,
                  [.verifyCall ctx req.cmsPayload, .createChainCall ctx csr]⟩
            | .ok chain =>
                ⟨some chain, .ok, bumpCMS m .success,
                  [.verifyCall ctx req.cmsPayload, .createChainCall ctx csr]⟩

/-- The metric categories of the renewal dispatcher. -/
inductive RenewalMetric where
  | backendError
  | success
deriving DecidableEq, Repr

/-- The counter family of the renewal dispatcher. -/
structure RenewalServerMetrics where
  backendErrors : Nat := 0
  success : Nat := 0
deriving DecidableEq, Repr

/-- Read the counter of one dispatcher category. -/
def RenewalServerMetrics.get (m : RenewalServerMetrics) : RenewalMetric → Nat
  | .backendError => m.backendErrors
  | .success => m.success

/-- Increment the counter of one dispatcher category by one. -/
def bumpRenewal (m : RenewalServerMetrics) : RenewalMetric → RenewalServerMetrics
  | .backendError => { m with backendErrors := m.backendErrors + 1 }
  | .success => { m with success := m.success + 1 }

/-- The renewal dispatcher's configuration (`grpc.RenewalServer`): the
injected CMS handler and response-signer capabilities. -/
structure RenewalServer where
  cmsHandler : Nat → Request → Except Unit (List Certificate)
  cmsSigner : Nat → List Certificate → Except Unit Bytes

/-- The observable outcome of one dispatcher call: the signed response
(none on error), whether an error was returned, the updated counter
family, and the capability invocations made, in order. -/
structure DispatchResult where
  response : Option Bytes
  isErr : Bool
  metrics : RenewalServerMetrics
  calls : List CapCall
deriving DecidableEq, Repr

/-- Modelled from the spec: `grpc.RenewalServer.ChainRenewal` (the renewal
dispatcher), whose implementation is absent from the snapshot (only its
tests are present). Determines the envelope kind: when the CMS-signed
payload is absent (only the legacy kind present, or both empty) the
request is rejected as a backend error without invoking the CMS handler.
Otherwise it delegates to the CMS handler; a handler failure is a backend
error and the response signer is not invoked. On handler success it passes
the chain to the response signer; a signer failure is also a backend
error. Exactly one of the two counters — success or backend-error — is
incremented per call. -/
def ChainRenewal (s : RenewalServer) (ctx : Nat) (req : Request)
    (m : RenewalServerMetrics) : DispatchResult :=
  match req with
  | .cmsSigned _ =>
      match s.cmsHandler ctx req with
      | .error _ =>
          ⟨none, true, bumpRenewal m .backendError, [.handleCMSCall ctx req]⟩
      | .ok chain =>
          match s.cmsSigner ctx chain with
          | .error _ =>
              ⟨none, true, bumpRenewal m .backendError,
                [.handleCMSCall ctx req, .signCMSCall ctx chain]⟩
          | .ok bs =>
              ⟨some bs, false, bumpRenewal m .success,
                [.handleCMSCall ctx req, .signCMSCall ctx chain]⟩
  | _ => ⟨none, true, bumpRenewal m .backendError, []⟩

/-- A stub verifier capability that always fails (the analogue of a mock
configured to return an error). -/
def verifierErrStub : Nat → CMSBytes → Except Unit CSR :=
  fun _ _ => .error ()

/-- A stub chain-builder capability that always fails. -/
def builderErrStub : Nat → CSR → Except Unit (List Certificate) :=
  fun _ _ => .error ()

/-- A concrete signing request used in concrete evaluations. -/
def csrFixture : CSR :=
  { raw := [7], subjectIA := some ⟨1, 111⟩, publicKey := 5 }

/-- A stub verifier capability that always succeeds with `csrFixture`. -/
def verifierOkStub : Nat → CMSBytes → Except Unit CSR :=
  fun _ _ => .ok csrFixture

/-- A concrete requester leaf certificate. -/
def leafFixture : Certificate :=
  { raw := [3], subjectIA := some ⟨1, 111⟩, subjectKeyID := [5],
    authorityKeyID := [9], notBefore := 0, notAfter := 100, pubKey := 5 }

/-- A concrete CA certificate. -/
def issuerFixture : Certificate :=
  { raw := [4], subjectIA := some ⟨1, 110⟩, subjectKeyID := [9],
    authorityKeyID := [9], notBefore := 0, notAfter := 200,
    keyCertSign := true, isCA := true, pubKey := 9 }

/-- A stub chain-builder capability that always succeeds with the concrete
requester chain. -/
def builderOkStub : Nat → CSR → Except Unit (List Certificate) :=
  fun _ _ => .ok [leafFixture, issuerFixture]

/-- A concrete CMS handler configuration whose verifier and chain builder
both fail (they are never reached in the scenarios it is used for). -/
def cmsServerA : CMS :=
  { verifier := verifierErrStub, chainBuilder := builderErrStub, ia := ⟨1, 110⟩ }

/-- A concrete CMS handler configuration whose verifier succeeds and whose
chain builder fails. -/
def cmsServerB : CMS :=
  { verifier := verifierOkStub, chainBuilder := builderErrStub, ia := ⟨1, 110⟩ }

/-- A concrete well-formed signed payload. -/
def payloadFixture : SignedPayload :=
  { csr := csrFixture, signerIA := ⟨1, 111⟩, signerSKID := [5],
    chain := [leafFixture, issuerFixture], expiration := 90,
    sig := signBytes 5 [7] }

/-- A request carrying undecodable CMS payload bytes. -/
def reqUndecodable : Request :=
  .cmsSigned (.raw [1, 2, 3])

/-- A request carrying a well-formed CMS payload. -/
def reqWellFormed : Request :=
  .cmsSigned (.encoded payloadFixture)

/-- A concrete valid current-identity signer. -/
def signerFixture : TrustSigner :=
  { privateKey := 5, algorithm := 0, chainValidity := ⟨0, 100⟩,
    expiration := 90, ia := ⟨1, 111⟩, subjectKeyIdent := [5],
    chain := [leafFixture, issuerFixture] }

/-- A concrete CA policy issuing from `issuerFixture`. -/
def caFixture : CAPolicy :=
  { validity := 50, certificate := issuerFixture, signerKey := 9 }

/-- A stub CMS-handler capability that always fails. -/
def handlerErrStub : Nat → Request → Except Unit (List Certificate) :=
  fun _ _ => .error ()

/-- A stub CMS-handler capability that always succeeds with the concrete
requester chain. -/
def handlerOkStub : Nat → Request → Except Unit (List Certificate) :=
  fun _ _ => .ok [leafFixture, issuerFixture]

/-- A stub response-signer capability that always fails. -/
def cmsSignerErrStub : Nat → List Certificate → Except Unit Bytes :=
  fun _ _ => .error ()

/-- A concrete dispatcher configuration whose CMS handler fails. -/
def renewalServerErr : RenewalServer :=
  { cmsHandler := handlerErrStub, cmsSigner := cmsSignerErrStub }

/-- A concrete dispatcher configuration whose CMS handler succeeds and
whose response signer fails. -/
def renewalServerSignErr : RenewalServer :=
  { cmsHandler := handlerOkStub, cmsSigner := cmsSignerErrStub }

lemma bumpCMS_get (m : CMSHandlerMetrics) (c c' : CMSMetric) :
    (bumpCMS m c).get c' = m.get c' + (if c' = c then 1 else 0) := by
  cases c <;> cases c' <;> simp [bumpCMS, CMSHandlerMetrics.get]

lemma bumpRenewal_get (m : RenewalServerMetrics) (c c' : RenewalMetric) :
    (bumpRenewal m c).get c' = m.get c' + (if c' = c then 1 else 0) := by
  cases c <;> cases c' <;> simp [bumpRenewal, RenewalServerMetrics.get]

lemma handleCMS_metrics_shape (s : CMS) (claimedIA : IA) (ctx : Nat)
    (req : Request) (m : CMSHandlerMetrics) :
    ∃ c : CMSMetric, (HandleCMSRequest s claimedIA ctx req m).metrics = bumpCMS m c := by
  unfold HandleCMSRequest
  split
  · exact ⟨.notFoundError, rfl⟩
  · split
    · exact ⟨.parseError, rfl⟩
    · split
      · exact ⟨.verifyError, rfl⟩
      · split
        · exact ⟨.internalError, rfl⟩
        · exact ⟨.success, rfl⟩

lemma chainRenewal_metrics_shape (s : RenewalServer) (ctx : Nat)
    (req : Request) (m : RenewalServerMetrics) :
    ∃ c : RenewalMetric, (ChainRenewal s ctx req m).metrics = bumpRenewal m c := by
  unfold ChainRenewal
  split
  · split
    · exact ⟨.backendError, rfl⟩
    · split
      · exact ⟨.backendError, rfl⟩
      · exact ⟨.success, rfl⟩
  · exact ⟨.backendError, rfl⟩

/-- C1: every call to the dispatcher (`ChainRenewal`) and every call to the
CMS handler (`HandleCMSRequest`) increments exactly one outcome category's
counter by exactly one and leaves all other category counters unchanged;
at the dispatcher the incremented counter is one of success and
backend-error — never both, never neither. -/
theorem chainRenewal_handleCMS_exactly_one_metric :
    (∀ (s : CMS) (claimedIA : IA) (ctx : Nat) (req : Request)
        (m : CMSHandlerMetrics),
      ∃ c : CMSMetric, ∀ c' : CMSMetric,
        (HandleCMSRequest s claimedIA ctx req m).metrics.get c' =
          m.get c' + (if c' = c then 1 else 0)) ∧
    (∀ (s : RenewalServer) (ctx : Nat) (req : Request)
        (m : RenewalServerMetrics),
      ∃ c : RenewalMetric, (c = .success ∨ c = .backendError) ∧
        ∀ c' : RenewalMetric,
          (ChainRenewal s ctx req m).metrics.get c' =
            m.get c' + (if c' = c then 1 else 0)) := by
  constructor
  · intro s claimedIA ctx req m
    obtain ⟨c, hc⟩ := handleCMS_metrics_shape s claimedIA ctx req m
    exact ⟨c, fun c' => by rw [hc, bumpCMS_get]⟩
  · intro s ctx req m
    obtain ⟨c, hc⟩ := chainRenewal_metrics_shape s ctx req m
    refine ⟨c, ?_, fun c' => by rw [hc, bumpRenewal_get]⟩
    cases c
    · exact Or.inr rfl
    · exact Or.inl rfl

/-- C2: for every renewal request whose claimed ISD differs from the ISD of
the IA the server is configured with, `HandleCMSRequest` returns an error
with the permission-denied outcome, records exactly the not-found metric
category, and never invokes the verifier capability. -/
theorem handleCMS_isd_mismatch_not_found (s : CMS) (claimedIA : IA)
    (ctx : Nat) (req : Request) (m : CMSHandlerMetrics)
    (h : claimedIA.isd ≠ s.ia.isd) :
    (HandleCMSRequest s claimedIA ctx req m).chain = none ∧
    (HandleCMSRequest s claimedIA ctx req m).code = .permissionDenied ∧
    (∀ c : CMSMetric,
      (HandleCMSRequest s claimedIA ctx req m).metrics.get c =
        m.get c + (if c = .notFoundError then 1 else 0)) ∧
    (HandleCMSRequest s claimedIA ctx req m).calls.filter CapCall.isVerify = [] := by
  unfold HandleCMSRequest
  rw [if_pos h]
  exact ⟨rfl, rfl, fun c => bumpCMS_get m .notFoundError c, rfl⟩

/-- Witness for C2 at a concrete mismatched-ISD input. -/
theorem handleCMS_isd_mismatch_not_found_witness :
    (IA.mk 2 112).isd ≠ cmsServerA.ia.isd ∧
    ((HandleCMSRequest cmsServerA ⟨2, 112⟩ 0 reqWellFormed {}).chain = none ∧
     (HandleCMSRequest cmsServerA ⟨2, 112⟩ 0 reqWellFormed {}).code = .permissionDenied ∧
     (∀ c : CMSMetric,
       (HandleCMSRequest cmsServerA ⟨2, 112⟩ 0 reqWellFormed {}).metrics.get c =
         CMSHandlerMetrics.get {} c + (if c = .notFoundError then 1 else 0)) ∧
     (HandleCMSRequest cmsServerA ⟨2, 112⟩ 0 reqWellFormed {}).calls.filter
       CapCall.isVerify = []) :=
  ⟨by decide,
   handleCMS_isd_mismatch_not_found cmsServerA ⟨2, 112⟩ 0 reqWellFormed {} (by decide)⟩

/-- C3: the jurisdiction pre-check runs before the structural decode: for
every envelope whose claimed ISD differs from the server's configured ISD,
the outcome is permission-denied with exactly the not-found category even
when the CMS payload bytes are not decodable — not-found takes precedence
over parse. -/
theorem handleCMS_jurisdiction_precedes_parse (s : CMS) (claimedIA : IA)
    (ctx : Nat) (req : Request) (m : CMSHandlerMetrics)
    (h : claimedIA.isd ≠ s.ia.isd)
    (_hundec : decodeCMS req.cmsPayload = none) :
    (HandleCMSRequest s claimedIA ctx req m).code = .permissionDenied ∧
    (∀ c : CMSMetric,
      (HandleCMSRequest s claimedIA ctx req m).metrics.get c =
        m.get c + (if c = .notFoundError then 1 else 0)) := by
  unfold HandleCMSRequest
  rw [if_pos h]
  exact ⟨rfl, fun c => bumpCMS_get m .notFoundError c⟩

/-- Witness for C3: mismatched ISD together with undecodable payload bytes. -/
theorem handleCMS_jurisdiction_precedes_parse_witness :
    (IA.mk 2 112).isd ≠ cmsServerA.ia.isd ∧
    decodeCMS reqUndecodable.cmsPayload = none ∧
    ((HandleCMSRequest cmsServerA ⟨2, 112⟩ 0 reqUndecodable {}).code = .permissionDenied ∧
     (∀ c : CMSMetric,
       (HandleCMSRequest cmsServerA ⟨2, 112⟩ 0 reqUndecodable {}).metrics.get c =
         CMSHandlerMetrics.get {} c + (if c = .notFoundError then 1 else 0))) :=
  ⟨by decide, by decide,
   handleCMS_jurisdiction_precedes_parse cmsServerA ⟨2, 112⟩ 0 reqUndecodable {}
     (by decide) (by decide)⟩

/-- C4 counterexample: the claim as stated quantifies over every envelope
with undecodable payload bytes, with no condition on the claimed ISD. At a
concrete input whose payload bytes are undecodable but whose claimed ISD
(2) differs from the server's configured ISD (1), the jurisdiction
pre-check fires first: the outcome is permission-denied, not
invalid-argument, and the recorded category is not-found, not parse — so
the claim as stated is false. -/
theorem handleCMS_parse_claim_counterexample :
    decodeCMS reqUndecodable.cmsPayload = none ∧
    (HandleCMSRequest cmsServerA ⟨2, 112⟩ 0 reqUndecodable {}).code ≠ .invalidArgument ∧
    (HandleCMSRequest cmsServerA ⟨2, 112⟩ 0 reqUndecodable {}).metrics.get .parseError = 0 ∧
    (HandleCMSRequest cmsServerA ⟨2, 112⟩ 0 reqUndecodable {}).code = .permissionDenied ∧
    (HandleCMSRequest cmsServerA ⟨2, 112⟩ 0 reqUndecodable {}).metrics.get .notFoundError = 1 := by
  decide

/-- C4 as amended: for every envelope that passes the jurisdiction
pre-check (claimed ISD equal to the server's configured ISD) and whose
CMS-signed payload bytes are not a well-formed CMS structure,
`HandleCMSRequest` returns an error with the invalid-argument outcome,
records exactly the parse metric category, and never invokes the
verifier. -/
theorem handleCMS_undecodable_parse_error (s : CMS) (claimedIA : IA)
    (ctx : Nat) (req : Request) (m : CMSHandlerMetrics)
    (h : claimedIA.isd = s.ia.isd)
    (hundec : decodeCMS req.cmsPayload = none) :
    (HandleCMSRequest s claimedIA ctx req m).chain = none ∧
    (HandleCMSRequest s claimedIA ctx req m).code = .invalidArgument ∧
    (∀ c : CMSMetric,
      (HandleCMSRequest s claimedIA ctx req m).metrics.get c =
        m.get c + (if c = .parseError then 1 else 0)) ∧
    (HandleCMSRequest s claimedIA ctx req m).calls.filter CapCall.isVerify = [] := by
  unfold HandleCMSRequest
  rw [if_neg (by simp [h]), hundec]
  exact ⟨rfl, rfl, fun c => bumpCMS_get m .parseError c, rfl⟩

/-- Witness for the amended C4: matching ISD, undecodable payload bytes. -/
theorem handleCMS_undecodable_parse_error_witness :
    (IA.mk 1 111).isd = cmsServerA.ia.isd ∧
    decodeCMS reqUndecodable.cmsPayload = none ∧
    ((HandleCMSRequest cmsServerA ⟨1, 111⟩ 0 reqUndecodable {}).chain = none ∧
     (HandleCMSRequest cmsServerA ⟨1, 111⟩ 0 reqUndecodable {}).code = .invalidArgument ∧
     (∀ c : CMSMetric,
       (HandleCMSRequest cmsServerA ⟨1, 111⟩ 0 reqUndecodable {}).metrics.get c =
         CMSHandlerMetrics.get {} c + (if c = .parseError then 1 else 0)) ∧
     (HandleCMSRequest cmsServerA ⟨1, 111⟩ 0 reqUndecodable {}).calls.filter
       CapCall.isVerify = []) :=
  ⟨by decide, by decide,
   handleCMS_undecodable_parse_error cmsServerA ⟨1, 111⟩ 0 reqUndecodable {}
     (by decide) (by decide)⟩


/-- C5: in `HandleCMSRequest`, a verifier failure yields the verify metric
category with the invalid-argument outcome; a verifier success followed by
a chain-builder failure yields the internal metric category with the
unavailable outcome. (Both scenarios presuppose that the call reaches the
respective stage: the jurisdiction pre-check passes and the payload is
well formed.) -/
theorem handleCMS_verify_and_internal_categories :
    (∀ (s : CMS) (claimedIA : IA) (ctx : Nat) (req : Request)
        (m : CMSHandlerMetrics) (p : SignedPayload),
      claimedIA.isd = s.ia.isd →
      decodeCMS req.cmsPayload = some p →
      s.verifier ctx req.cmsPayload = .error () →
      (HandleCMSRequest s claimedIA ctx req m).code = .invalidArgument ∧
      (∀ c : CMSMetric,
        (HandleCMSRequest s claimedIA ctx req m).metrics.get c =
          m.get c + (if c = .verifyError then 1 else 0))) ∧
    (∀ (s : CMS) (claimedIA : IA) (ctx : Nat) (req : Request)
        (m : CMSHandlerMetrics) (p : SignedPayload) (csr : CSR),
      claimedIA.isd = s.ia.isd →
      decodeCMS req.cmsPayload = some p →
      s.verifier ctx req.cmsPayload = .ok csr →
      s.chainBuilder ctx csr = .error () →
      (HandleCMSRequest s claimedIA ctx req m).code = .unavailable ∧
      (∀ c : CMSMetric,
        (HandleCMSRequest s claimedIA ctx req m).metrics.get c =
          m.get c + (if c = .internalError then 1 else 0))) := by
  constructor
  · intro s claimedIA ctx req m p hia hdec hver
    simp [HandleCMSRequest, hia, hdec, hver, bumpCMS_get]
  · intro s claimedIA ctx req m p csr hia hdec hver hcb
    simp [HandleCMSRequest, hia, hdec, hver, hcb, bumpCMS_get]

/-- Witness for C5: the verifier-failure conjunct at a concrete server
whose verifier fails, and the chain-builder-failure conjunct at a concrete
server whose verifier succeeds and whose chain builder fails. -/
theorem handleCMS_verify_and_internal_categories_witness :
    ((HandleCMSRequest cmsServerA ⟨1, 111⟩ 0 reqWellFormed {}).code = .invalidArgument ∧
     (∀ c : CMSMetric,
       (HandleCMSRequest cmsServerA ⟨1, 111⟩ 0 reqWellFormed {}).metrics.get c =
         CMSHandlerMetrics.get {} c + (if c = .verifyError then 1 else 0))) ∧
    ((HandleCMSRequest cmsServerB ⟨1, 111⟩ 0 reqWellFormed {}).code = .unavailable ∧
     (∀ c : CMSMetric,
       (HandleCMSRequest cmsServerB ⟨1, 111⟩ 0 reqWellFormed {}).metrics.get c =
         CMSHandlerMetrics.get {} c + (if c = .internalError then 1 else 0))) :=
  ⟨handleCMS_verify_and_internal_categories.1 cmsServerA ⟨1, 111⟩ 0 reqWellFormed {}
     payloadFixture (by decide) (by decide) rfl,
   handleCMS_verify_and_internal_categories.2 cmsServerB ⟨1, 111⟩ 0 reqWellFormed {}
     payloadFixture csrFixture (by decide) (by decide) rfl rfl⟩

/-- C6: the dispatcher returns an error and records exactly the
backend-error metric when (a) the request's CMS-signed payload is absent —
in which case no capability at all is invoked, in particular the CMS
handler is not — and (b) when the CMS handler succeeded but the response
signer's `SignCMS` failed. -/
theorem chainRenewal_backend_error_cases :
    (∀ (s : RenewalServer) (ctx : Nat) (req : Request)
        (m : RenewalServerMetrics),
      req.hasCMS = false →
      (ChainRenewal s ctx req m).isErr = true ∧
      (ChainRenewal s ctx req m).response = none ∧
      (∀ c : RenewalMetric,
        (ChainRenewal s ctx req m).metrics.get c =
          m.get c + (if c = .backendError then 1 else 0)) ∧
      (ChainRenewal s ctx req m).calls = []) ∧
    (∀ (s : RenewalServer) (ctx : Nat) (req : Request)
        (m : RenewalServerMetrics) (chain : List Certificate),
      s.cmsHandler ctx req = .ok chain →
      s.cmsSigner ctx chain = .error () →
      (ChainRenewal s ctx req m).isErr = true ∧
      (ChainRenewal s ctx req m).response = none ∧
      (∀ c : RenewalMetric,
        (ChainRenewal s ctx req m).metrics.get c =
          m.get c + (if c = .backendError then 1 else 0))) := by
  constructor
  · intro s ctx req m hmiss
    cases req with
    | empty =>
        exact ⟨rfl, rfl, fun c => bumpRenewal_get m .backendError c, rfl⟩
    | legacySigned bs =>
        exact ⟨rfl, rfl, fun c => bumpRenewal_get m .backendError c, rfl⟩
    | cmsSigned bs => simp [Request.hasCMS] at hmiss
  · intro s ctx req m chain hh hs
    cases req with
    | empty =>
        exact ⟨rfl, rfl, fun c => bumpRenewal_get m .backendError c⟩
    | legacySigned bs =>
        exact ⟨rfl, rfl, fun c => bumpRenewal_get m .backendError c⟩
    | cmsSigned bs =>
        simp [ChainRenewal, hh, hs, bumpRenewal_get]

/-- Witness for C6: the missing-payload conjunct at a legacy-only request,
and the signer-failure conjunct at a concrete dispatcher whose handler
succeeds and whose signer fails. -/
theorem chainRenewal_backend_error_cases_witness :
    (Request.legacySigned [9]).hasCMS = false ∧
    ((ChainRenewal renewalServerErr 0 (.legacySigned [9]) {}).isErr = true ∧
     (ChainRenewal renewalServerErr 0 (.legacySigned [9]) {}).response = none ∧
     (∀ c : RenewalMetric,
       (ChainRenewal renewalServerErr 0 (.legacySigned [9]) {}).metrics.get c =
         RenewalServerMetrics.get {} c + (if c = .backendError then 1 else 0)) ∧
     (ChainRenewal renewalServerErr 0 (.legacySigned [9]) {}).calls = []) ∧
    ((ChainRenewal renewalServerSignErr 0 reqWellFormed {}).isErr = true ∧
     (ChainRenewal renewalServerSignErr 0 reqWellFormed {}).response = none ∧
     (∀ c : RenewalMetric,
       (ChainRenewal renewalServerSignErr 0 reqWellFormed {}).metrics.get c =
         RenewalServerMetrics.get {} c + (if c = .backendError then 1 else 0))) :=
  ⟨by decide,
   chainRenewal_backend_error_cases.1 renewalServerErr 0 (.legacySigned [9]) {}
     (by decide),
   chainRenewal_backend_error_cases.2 renewalServerSignErr 0 reqWellFormed {}
     [leafFixture, issuerFixture] rfl rfl⟩

/-- C7: round-trip between the requester-side builder and the verifier —
for every valid current-identity signer whose chain has not expired and
every signing request, the envelope produced by `NewChainRenewalRequest`
verifies successfully and the verifier returns a signing request equal to
the original. -/
theorem buildRenewal_verify_round_trip (ctx : Nat) (csr : CSR)
    (s : TrustSigner) (h : s.validB = true) :
    ∃ b : CMSBytes, NewChainRenewalRequest ctx csr s = .ok (.cmsSigned b) ∧
      VerifyCMSSignedRenewalRequest b = .ok csr := by
  unfold TrustSigner.validB at h
  rcases hchain : s.chain with _ | ⟨leaf, _ | ⟨issuer, _ | ⟨c3, rest⟩⟩⟩
  · rw [hchain] at h; simp at h
  · rw [hchain] at h; simp at h
  case cons.cons.nil =>
    rw [hchain] at h
    simp only [Bool.and_eq_true, decide_eq_true_eq] at h
    obtain ⟨⟨⟨⟨⟨⟨h1, h2⟩, h3⟩, h4⟩, h5⟩, h6⟩, h7⟩ := h
    refine ⟨.encoded
      { csr := csr, signerIA := s.ia, signerSKID := s.subjectKeyIdent,
        chain := s.chain, expiration := s.expiration,
        sig := signBytes s.privateKey csr.raw }, ?_, ?_⟩
    · unfold NewChainRenewalRequest
      rw [if_pos h7]
    · simp only [VerifyCMSSignedRenewalRequest, decodeCMS, hchain]
      simp [checkSig, signBytes, h1, h2, h4, h5, h6, h7]
  · rw [hchain] at h; simp at h

/-- Witness for C7 at a concrete valid signer and signing request. -/
theorem buildRenewal_verify_round_trip_witness :
    signerFixture.validB = true ∧
    (∃ b : CMSBytes,
      NewChainRenewalRequest 0 csrFixture signerFixture = .ok (.cmsSigned b) ∧
      VerifyCMSSignedRenewalRequest b = .ok csrFixture) :=
  ⟨by decide, buildRenewal_verify_round_trip 0 csrFixture signerFixture (by decide)⟩

/-- The chain a concrete issuance by `caFixture` produces. -/
def issuedChainFixture : List Certificate :=
  [{ raw := [7], subjectIA := some ⟨1, 111⟩, subjectKeyID := [5],
     authorityKeyID := [9], notBefore := 0, notAfter := 50,
     keyCertSign := false, isCA := false, pubKey := 5, serial := 1 },
   issuerFixture]

/-- C8: every chain successfully issued by `CAPolicy.createChain` is
exactly the two-element sequence `[leaf, issuer]` (the issuer being the
CA's certificate) with the leaf's authority-key identifier equal to the
issuer's subject-key identifier, the leaf's notAfter bounded by the
issuer's, and the leaf not a CA. -/
theorem createChain_chain_consistency (ca : CAPolicy) (now serial : Nat)
    (csr : CSR) (chain : List Certificate)
    (h : ca.createChain now serial csr = .ok chain) :
    ∃ leaf : Certificate, chain = [leaf, ca.certificate] ∧
      leaf.authorityKeyID = ca.certificate.subjectKeyID ∧
      leaf.notAfter ≤ ca.certificate.notAfter ∧
      leaf.isCA = false := by
  unfold CAPolicy.createChain at h
  cases hia : csr.subjectIA with
  | none => rw [hia] at h; simp at h
  | some ia =>
      rw [hia] at h
      refine ⟨⟨csr.raw, some ia, subjectKeyID csr.publicKey,
        ca.certificate.subjectKeyID, now,
        min (now + ca.validity) ca.certificate.notAfter, false, false,
        csr.publicKey, serial⟩, ?_, rfl, min_le_right _ _, rfl⟩
      exact (Except.ok.inj h).symm

/-- Witness for C8 at a concrete policy and signing request. -/
theorem createChain_chain_consistency_witness :
    caFixture.createChain 0 1 csrFixture = .ok issuedChainFixture ∧
    (∃ leaf : Certificate, issuedChainFixture = [leaf, caFixture.certificate] ∧
      leaf.authorityKeyID = caFixture.certificate.subjectKeyID ∧
      leaf.notAfter ≤ caFixture.certificate.notAfter ∧
      leaf.isCA = false) :=
  ⟨rfl, createChain_chain_consistency caFixture 0 1 csrFixture issuedChainFixture rfl⟩

/-- C9: whenever the CMS handler capability reports an error to the
dispatcher, the response signer is never invoked and `ChainRenewal`
returns no response together with the error. -/
theorem chainRenewal_handler_error_no_sign (s : RenewalServer) (ctx : Nat)
    (req : Request) (m : RenewalServerMetrics)
    (h : s.cmsHandler ctx req = .error ()) :
    (ChainRenewal s ctx req m).response = none ∧
    (ChainRenewal s ctx req m).isErr = true ∧
    (ChainRenewal s ctx req m).calls.filter CapCall.isSignCMS = [] := by
  cases req with
  | empty => exact ⟨rfl, rfl, rfl⟩
  | legacySigned bs => exact ⟨rfl, rfl, rfl⟩
  | cmsSigned bs => simp [ChainRenewal, h, CapCall.isSignCMS]

/-- Witness for C9 at a concrete dispatcher whose handler fails. -/
theorem chainRenewal_handler_error_no_sign_witness :
    renewalServerErr.cmsHandler 0 reqWellFormed = .error () ∧
    ((ChainRenewal renewalServerErr 0 reqWellFormed {}).response = none ∧
     (ChainRenewal renewalServerErr 0 reqWellFormed {}).isErr = true ∧
     (ChainRenewal renewalServerErr 0 reqWellFormed {}).calls.filter
       CapCall.isSignCMS = []) :=
  ⟨rfl, chainRenewal_handler_error_no_sign renewalServerErr 0 reqWellFormed {} rfl⟩

/-- C10: whenever `HandleCMSRequest` invokes the verifier capability it
does so exactly once, passing the caller's context unchanged and exactly
the CMS-signed payload field of the incoming request, unmodified (and
otherwise it never invokes it). -/
theorem handleCMS_verifier_called_once_exact (s : CMS) (claimedIA : IA)
    (ctx : Nat) (req : Request) (m : CMSHandlerMetrics) :
    (HandleCMSRequest s claimedIA ctx req m).calls.filter CapCall.isVerify = [] ∨
    (HandleCMSRequest s claimedIA ctx req m).calls.filter CapCall.isVerify =
      [CapCall.verifyCall ctx req.cmsPayload] := by
  unfold HandleCMSRequest
  split
  · left; rfl
  · split
    · left; rfl
    · split
      · right; simp [CapCall.isVerify]
      · split
        · right; simp [CapCall.isVerify]
        · right; simp [CapCall.isVerify]
